import Mathlib

/-!
Shallow embedding of the pact-python binding layer (matcher construction,
`PactV3` builder, mock-server verification, message-provider lifecycle and
contract-document serialization) together with proofs about the behaviour
the specification describes.
-/

namespace PactPython

/-! ## Matcher value model (`src/pact/v3/match/__init__.py`) -/

/-- A Python numeric value as it is seen by `isinstance(value, int)`:
either an `int` or a `float` (floats are carried as rationals, which is
enough for the construction logic, which never does float arithmetic). -/
inductive PyNum where
  | int (n : Int)
  | float (q : Rat)
deriving DecidableEq, Repr

/-- A generator value.  `pact/v3/generators.py` is not under src/; a
generator is modelled symbolically as a record of the construction call
made by the matcher factories (`random_int(min_val, max_val)`,
`random_decimal(digits)`, `random_string(size)`), which is all the
matcher-construction code observes. -/
inductive Gen where
  | randomInt (minVal maxVal : Option Int)
  | randomDecimal (digits : Option Int)
  | randomString (size : Option Int)
deriving DecidableEq, Repr

/-- The `MatchType` union of the source (`_MatchableT | Matcher`): a
scalar, list or dict template that may embed matchers.  A matcher
(`ConcreteMatcher` of `pact/v3/match/matchers.py`, which only stores the
keyword arguments it is given) is carried inline with all its fields. -/
inductive MatchType where
  | null
  | bool (b : Bool)
  | num (n : PyNum)
  | str (s : String)
  | list (xs : List MatchType)
  | dict (kvs : List (String × MatchType))
  | matcher (matcherType : String) (value : Option MatchType)
      (minCount maxCount : Option Int) (formatStr regexStr : Option String)
      (rules variants : Option (List MatchType))
      (generator : Option Gen) (forceGenerator : Bool)

/-- `ConcreteMatcher(matcher_type, value, *, min, max, format, regex,
rules, variants, generator, force_generator)`: stores its arguments.
(`pact/v3/match/matchers.py` is not under src/; the factory functions in
`match/__init__.py` only ever construct and return this record.) -/
def ConcreteMatcher (matcherType : String) (value : Option MatchType)
    (minCount maxCount : Option Int) (formatStr regexStr : Option String)
    (rules variants : Option (List MatchType)) (generator : Option Gen)
    (forceGenerator : Bool) : MatchType :=
  .matcher matcherType value minCount maxCount formatStr regexStr rules
    variants generator forceGenerator

/-- Field access: the generator stored in a matcher. -/
def MatchType.generatorOf : MatchType → Option Gen
  | .matcher _ _ _ _ _ _ _ _ g _ => g
  | _ => none

/-- Field access: the stored template value of a matcher. -/
def MatchType.valueOf : MatchType → Option MatchType
  | .matcher _ v _ _ _ _ _ _ _ _ => v
  | _ => none

/-- Field access: the `min` field of a matcher. -/
def MatchType.minOf : MatchType → Option Int
  | .matcher _ _ m _ _ _ _ _ _ _ => m
  | _ => none

/-- Field access: the `max` field of a matcher. -/
def MatchType.maxOf : MatchType → Option Int
  | .matcher _ _ _ m _ _ _ _ _ _ => m
  | _ => none

/-- Field access: the matcher-type tag of a matcher. -/
def MatchType.typeOf : MatchType → Option String
  | .matcher t _ _ _ _ _ _ _ _ _ => some t
  | _ => none

/-- `isinstance(value, int)` on the optional `value` argument of
`number` (a `None` or a `float` is not an `int`). -/
def isIntInstance : Option PyNum → Bool
  | some (.int _) => true
  | _ => false

/-- `integer(value, min_val, max_val)` from the source: always uses a
`random_int(min_val, max_val)` generator. -/
def integer (value minVal maxVal : Option Int) : MatchType :=
  ConcreteMatcher "integer" ((value.map PyNum.int).map MatchType.num)
    none none none none none none (some (Gen.randomInt minVal maxVal)) false

/-- `decimal(value, digits)` from the source: always uses a
`random_decimal(digits)` generator. -/
def decimal (value : Option Rat) (digits : Option Int) : MatchType :=
  ConcreteMatcher "decimal" ((value.map PyNum.float).map MatchType.num)
    none none none none none none (some (Gen.randomDecimal digits)) false

/-- `number(value, min_val, max_val, digits)` from the source: raises
`ValueError` when both `min_val` and `digits` are given; otherwise picks
`random_int(min_val, max_val)` when `isinstance(value, int)` or either
bound is given, else `random_decimal(digits)`, and returns
`ConcreteMatcher("number", value, generator=generator)`. -/
def number (value : Option PyNum) (minVal maxVal digits : Option Int) :
    Except String MatchType :=
  if minVal.isSome && digits.isSome then
    .error "min_val and digits cannot be used together"
  else
    let generator :=
      if isIntInstance value || minVal.isSome || maxVal.isSome then
        Gen.randomInt minVal maxVal
      else
        Gen.randomDecimal digits
    .ok (ConcreteMatcher "number" (value.map MatchType.num)
      none none none none none none (some generator) false)

/-- `like(value, min_count, max_count, generator)` from the source. -/
def like (value : MatchType) (minCount maxCount : Option Int)
    (generator : Option Gen) : MatchType :=
  ConcreteMatcher "type" (some value) minCount maxCount none none none none
    generator false

/-- `each_like(value, min_count, max_count)` from the source: wraps the
template in a one-element list and stores the bounds. -/
def each_like (value : MatchType) (minCount maxCount : Option Int) :
    MatchType :=
  ConcreteMatcher "type" (some (.list [value])) minCount maxCount none none
    none none none false

/-- The source default for `each_like`'s `min_count` parameter
(`min_count: int | None = 1`). -/
def each_like_default_min : Option Int := some 1

/-- The source default for `each_like`'s `max_count` parameter
(`max_count: int | None = None`). -/
def each_like_default_max : Option Int := none

/-- Modelled from the spec: the array-length check of the structural
matching engine (not under src/) — "verify `len(actual) >= min` and, if
`max` given, `<= max`".  An absent bound imposes no constraint. -/
def lengthWithinBounds (len : Nat) (minCount maxCount : Option Int) : Bool :=
  (match minCount with
   | none => true
   | some m => m ≤ (len : Int)) &&
  (match maxCount with
   | none => true
   | some m => (len : Int) ≤ m)

/-! ## `PactV3` consumer builder (`src/pact/pact_v3.py`) -/

/-- A Python body value as handled by `PactV3.__process_body`: a dict, a
list, an embedded `V3Matcher`, or any other value (scalar).
`pact/matchers_v3.py` is not under src/; a `V3Matcher` is modelled as
carrying the value its `generate()` call returns, which is the only thing
`__process_body` observes about it. -/
inductive Body where
  | null
  | bool (b : Bool)
  | int (n : Int)
  | str (s : String)
  | dict (kvs : List (String × Body))
  | list (xs : List Body)
  | v3matcher (generated : Body)

mutual

/-- `PactV3.__process_body`: dicts are mapped key-by-key, lists
element-by-element, a `V3Matcher` is replaced by the processed result of
its `generate()` call, and anything else is returned unchanged. -/
def process_body : Body → Body
  | .dict kvs => .dict (process_body_kvs kvs)
  | .list xs => .list (process_body_list xs)
  | .v3matcher g => process_body g
  | .null => .null
  | .bool b => .bool b
  | .int n => .int n
  | .str s => .str s

/-- The dict comprehension of `__process_body`. -/
def process_body_kvs : List (String × Body) → List (String × Body)
  | [] => []
  | kv :: kvs => (kv.1, process_body kv.2) :: process_body_kvs kvs

/-- The list comprehension of `__process_body`. -/
def process_body_list : List Body → List Body
  | [] => []
  | x :: xs => process_body x :: process_body_list xs

end

mutual

/-- `true` when a body contains no `V3Matcher` anywhere. -/
def matcherFree : Body → Bool
  | .dict kvs => matcherFreeKvs kvs
  | .list xs => matcherFreeList xs
  | .v3matcher _ => false
  | .null => true
  | .bool _ => true
  | .int _ => true
  | .str _ => true

/-- `matcherFree` over the values of a dict. -/
def matcherFreeKvs : List (String × Body) → Bool
  | [] => true
  | kv :: kvs => matcherFree kv.2 && matcherFreeKvs kvs

/-- `matcherFree` over the elements of a list. -/
def matcherFreeList : List Body → Bool
  | [] => true
  | x :: xs => matcherFree x && matcherFreeList xs

end

/-- The Python exceptions the builder steps can raise. -/
inductive PyErr where
  | indexError
  | unboundLocalError
deriving DecidableEq, Repr

/-- A header entry as passed to `with_request`/`will_respond_with`:
a dict with `name` and `value` keys. -/
structure HeaderEntry where
  name : String
  value : String
deriving DecidableEq, Repr

/-- The state the native mock-server handle accumulates for one
interaction.  `pact/ffi/native_mock_server.py` is not under src/; each
FFI call (`new_interaction`, `given`, `upon_receiving`, `with_request`,
`with_request_header`, `with_request_body`, `response_status`,
`with_response_header`, `with_response_body`) is modelled as recording
its arguments on the interaction handle. -/
structure InteractionRec where
  description : Option String
  providerState : Option String
  requestMethod : Option String
  requestPath : Option String
  requestHeaders : List (Nat × String × String)
  requestBody : Option (String × Body)
  responseStatus : Option Int
  responseHeaders : List (Nat × String × String)
  responseBody : Option (String × Body)

/-- A fresh interaction handle created with a description. -/
def newInteraction (description : String) : InteractionRec :=
  ⟨some description, none, none, none, [], none, none, [], none⟩

/-- The `PactV3` object state: names and the mutable `interactions`
list. -/
structure PactV3 where
  consumer_name : String
  provider_name : String
  interactions : List InteractionRec

/-- `PactV3.new_http_interaction`: appends a new interaction handle. -/
def new_http_interaction (p : PactV3) (description : String) : PactV3 :=
  { p with interactions := p.interactions ++ [newInteraction description] }

/-- `PactV3.given`: sets the provider state on `self.interactions[0]`;
raises `IndexError` when no interaction exists. -/
def given (p : PactV3) (providerState : String) : Except PyErr PactV3 :=
  match p.interactions with
  | [] => .error .indexError
  | i :: rest =>
    .ok { p with interactions :=
            { i with providerState := some providerState } :: rest }

/-- `PactV3.upon_receiving`: sets the description on
`self.interactions[0]`; raises `IndexError` when no interaction
exists. -/
def upon_receiving (p : PactV3) (description : String) : Except PyErr PactV3 :=
  match p.interactions with
  | [] => .error .indexError
  | i :: rest =>
    .ok { p with interactions :=
            { i with description := some description } :: rest }

/-- The header loop shared by `with_request` and `will_respond_with`:
enumerates the headers, recording `(index, name, value)` for each, and
(re)binds the Python local `content_type` whenever a header named
`"Content-Type"` is seen.  Returns the recorded headers and the final
binding state of `content_type`. -/
def processHeaders (startIdx : Nat) (contentType : Option String) :
    List HeaderEntry → List (Nat × String × String) × Option String
  | [] => ([], contentType)
  | h :: rest =>
    let ct := if h.name = "Content-Type" then some h.value else contentType
    ((startIdx, h.name, h.value) :: (processHeaders (startIdx + 1) ct rest).1,
     (processHeaders (startIdx + 1) ct rest).2)

/-- The value the Python local `content_type` holds after the header
loop: the value of the last header named `"Content-Type"`, or unbound
(`none`) when there is no such header. -/
def lastContentType (hs : List HeaderEntry) : Option String :=
  hs.foldl
    (fun acc h => if h.name = "Content-Type" then some h.value else acc) none

/-- `PactV3.with_request(method, path, query, headers, body)`: sets
method and path on `self.interactions[0]` (raising `IndexError` when no
interaction exists), records each header and tracks the local
`content_type`, and, when `body is not None`, attaches
`(content_type, __process_body(body))` — raising `UnboundLocalError`
when `content_type` was never bound.  The `query` argument is accepted
and ignored (a TODO in the source). -/
def with_request (p : PactV3) (method path : String) (query : Option String)
    (headers : Option (List HeaderEntry)) (body : Option Body) :
    Except PyErr PactV3 :=
  match p.interactions with
  | [] => .error .indexError
  | i :: rest =>
    let i1 := { i with requestMethod := some method,
                       requestPath := some path }
    let hdrs :=
      match headers with
      | none => ([], none)
      | some hs => processHeaders 0 none hs
    let i2 := { i1 with requestHeaders := i1.requestHeaders ++ hdrs.1 }
    match body with
    | none => .ok { p with interactions := i2 :: rest }
    | some b =>
      match hdrs.2 with
      | none => .error .unboundLocalError
      | some ct =>
        .ok { p with interactions :=
                { i2 with requestBody := some (ct, process_body b) } :: rest }

/-- `PactV3.will_respond_with(status, headers, body)`: sets the response
status on `self.interactions[0]` (raising `IndexError` when no
interaction exists), records each response header and tracks the local
`content_type`, and, when `body is not None`, attaches
`(content_type, __process_body(body))` — raising `UnboundLocalError`
when `content_type` was never bound. -/
def will_respond_with (p : PactV3) (status : Int)
    (headers : Option (List HeaderEntry)) (body : Option Body) :
    Except PyErr PactV3 :=
  match p.interactions with
  | [] => .error .indexError
  | i :: rest =>
    let i1 := { i with responseStatus := some status }
    let hdrs :=
      match headers with
      | none => ([], none)
      | some hs => processHeaders 0 none hs
    let i2 := { i1 with responseHeaders := i1.responseHeaders ++ hdrs.1 }
    match body with
    | none => .ok { p with interactions := i2 :: rest }
    | some b =>
      match hdrs.2 with
      | none => .error .unboundLocalError
      | some ct =>
        .ok { p with interactions :=
                { i2 with responseBody := some (ct, process_body b) } :: rest }

/-! ## Contract document model and serialization

Modelled from the spec: contract serialization and parsing live in the
external native library, not under src/.  The model follows §3, §4.3 and
§6 of the specification: a `Contract` is `{consumerName, providerName,
interactions, specVersion}`; the canonical JSON pact document is
`{consumer:{name}, provider:{name}, interactions:[...],
metadata:{pactSpecification:{version}}}` with object keys sorted and
`matchingRules`/`generators` emitted as maps keyed by path. -/

/-- A JSON value (numbers carried as integers, which suffices for the
document structure; floating-point payloads are outside the model). -/
inductive JVal where
  | null
  | bool (b : Bool)
  | num (n : Int)
  | str (s : String)
  | arr (xs : List JVal)
  | obj (kvs : List (String × JVal))

/-- Key order for canonical serialization: compare entries of a JSON
object by key. -/
def keyLE (a b : String × JVal) : Prop := a.1 ≤ b.1

instance : DecidableRel keyLE := fun a b =>
  inferInstanceAs (Decidable (a.1 ≤ b.1))

instance : IsTotal (String × JVal) keyLE :=
  ⟨fun a b => le_total a.1 b.1⟩

instance : IsTrans (String × JVal) keyLE :=
  ⟨fun _ _ _ h h2 => le_trans h h2⟩

/-- Sort the entries of a JSON object by key (stable insertion sort). -/
def sortKeys (kvs : List (String × JVal)) : List (String × JVal) :=
  List.insertionSort keyLE kvs

mutual

/-- Canonicalize a JSON value: sort every object's keys, recursively. -/
def canon : JVal → JVal
  | .null => .null
  | .bool b => .bool b
  | .num n => .num n
  | .str s => .str s
  | .arr xs => .arr (canonList xs)
  | .obj kvs => .obj (sortKeys (canonKvs kvs))

/-- `canon` over the elements of an array. -/
def canonList : List JVal → List JVal
  | [] => []
  | x :: xs => canon x :: canonList xs

/-- `canon` over the values of an object. -/
def canonKvs : List (String × JVal) → List (String × JVal)
  | [] => []
  | kv :: kvs => (kv.1, canon kv.2) :: canonKvs kvs

end

/-- Canonicalize a path-keyed map (such as `matchingRules`,
`generators`, `query` or `headers`): canonicalize every value and sort
by key. -/
def canonMap (kvs : List (String × JVal)) : List (String × JVal) :=
  sortKeys (canonKvs kvs)

mutual

/-- Render a JSON value to its byte representation. -/
def render : JVal → String
  | .null => "null"
  | .bool b => if b then "true" else "false"
  | .num n => toString n
  | .str s => "\"" ++ s ++ "\""
  | .arr xs => "[" ++ renderArr xs ++ "]"
  | .obj kvs => "\x7b" ++ renderObj kvs ++ "\x7d"

/-- Render the comma-separated elements of a JSON array. -/
def renderArr : List JVal → String
  | [] => ""
  | [x] => render x
  | x :: y :: xs => render x ++ "," ++ renderArr (y :: xs)

/-- Render the comma-separated entries of a JSON object. -/
def renderObj : List (String × JVal) → String
  | [] => ""
  | [kv] => "\"" ++ kv.1 ++ "\":" ++ render kv.2
  | kv :: kv2 :: kvs => "\"" ++ kv.1 ++ "\":" ++ render kv.2 ++ "," ++ renderObj (kv2 :: kvs)

end

/-- A provider state: `{name, params}` (§3). -/
structure ProviderState where
  name : String
  params : List (String × JVal)

/-- A request record: `{method, path, query, headers, body}` (§3). -/
structure RequestRec where
  method : String
  path : String
  query : List (String × JVal)
  headers : List (String × JVal)
  body : JVal

/-- A response record: `{status, headers, body}` (§3). -/
structure ResponseRec where
  status : Int
  headers : List (String × JVal)
  body : JVal

/-- An interaction: description, provider states, request, response and
the path-keyed `matchingRules` and `generators` maps (§3, §4.3, §6). -/
structure Interaction where
  description : String
  providerStates : List ProviderState
  request : RequestRec
  response : ResponseRec
  matchingRules : List (String × JVal)
  generators : List (String × JVal)

/-- A contract: consumer and provider names, the ordered interactions
and the specification version (§3). -/
structure Contract where
  consumerName : String
  providerName : String
  interactions : List Interaction
  specVersion : String

/-- Serialize a provider state (keys emitted in sorted order). -/
def serializeProviderState (ps : ProviderState) : JVal :=
  .obj [("name", .str ps.name), ("params", .obj (canonMap ps.params))]

/-- Serialize a request (keys emitted in sorted order). -/
def serializeRequest (r : RequestRec) : JVal :=
  .obj [("body", canon r.body),
        ("headers", .obj (canonMap r.headers)),
        ("method", .str r.method),
        ("path", .str r.path),
        ("query", .obj (canonMap r.query))]

/-- Serialize a response (keys emitted in sorted order). -/
def serializeResponse (r : ResponseRec) : JVal :=
  .obj [("body", canon r.body),
        ("headers", .obj (canonMap r.headers)),
        ("status", .num r.status)]

/-- Serialize an interaction (keys emitted in sorted order;
`matchingRules` and `generators` are path-keyed maps separate from the
literal example body, §4.3). -/
def serializeInteraction (i : Interaction) : JVal :=
  .obj [("description", .str i.description),
        ("generators", .obj (canonMap i.generators)),
        ("matchingRules", .obj (canonMap i.matchingRules)),
        ("providerStates", .arr (i.providerStates.map serializeProviderState)),
        ("request", serializeRequest i.request),
        ("response", serializeResponse i.response)]

/-- Serialize a contract to the canonical pact document (§6). -/
def serializeContract (c : Contract) : JVal :=
  .obj [("consumer", .obj [("name", .str c.consumerName)]),
        ("interactions", .arr (c.interactions.map serializeInteraction)),
        ("metadata", .obj [("pactSpecification",
            .obj [("version", .str c.specVersion)])]),
        ("provider", .obj [("name", .str c.providerName)])]

/-- Look a key up in a JSON object's entry list. -/
def jlookup (k : String) : List (String × JVal) → Option JVal
  | [] => none
  | kv :: kvs => if kv.1 = k then some kv.2 else jlookup k kvs

/-- Read a JSON value as an object. -/
def asObj : JVal → Option (List (String × JVal))
  | .obj kvs => some kvs
  | _ => none

/-- Read a JSON value as an array. -/
def asArr : JVal → Option (List JVal)
  | .arr xs => some xs
  | _ => none

/-- Read a JSON value as a string. -/
def asStr : JVal → Option String
  | .str s => some s
  | _ => none

/-- Read a JSON value as a number. -/
def asNum : JVal → Option Int
  | .num n => some n
  | _ => none

/-- Parse every element of a JSON array, failing when any element
fails. -/
def parseAll {α : Type} (f : JVal → Option α) : List JVal → Option (List α)
  | [] => some []
  | v :: vs => do
    let a ← f v
    let as ← parseAll f vs
    pure (a :: as)

/-- Parse a provider state from the document. -/
def parseProviderState (v : JVal) : Option ProviderState := do
  let kvs ← asObj v
  let name ← jlookup "name" kvs >>= asStr
  let params ← jlookup "params" kvs >>= asObj
  pure ⟨name, params⟩

/-- Parse a request from the document. -/
def parseRequest (v : JVal) : Option RequestRec := do
  let kvs ← asObj v
  let body ← jlookup "body" kvs
  let headers ← jlookup "headers" kvs >>= asObj
  let method ← jlookup "method" kvs >>= asStr
  let path ← jlookup "path" kvs >>= asStr
  let query ← jlookup "query" kvs >>= asObj
  pure ⟨method, path, query, headers, body⟩

/-- Parse a response from the document. -/
def parseResponse (v : JVal) : Option ResponseRec := do
  let kvs ← asObj v
  let body ← jlookup "body" kvs
  let headers ← jlookup "headers" kvs >>= asObj
  let status ← jlookup "status" kvs >>= asNum
  pure ⟨status, headers, body⟩

/-- Parse an interaction from the document. -/
def parseInteraction (v : JVal) : Option Interaction := do
  let kvs ← asObj v
  let description ← jlookup "description" kvs >>= asStr
  let generators ← jlookup "generators" kvs >>= asObj
  let matchingRules ← jlookup "matchingRules" kvs >>= asObj
  let statesArr ← jlookup "providerStates" kvs >>= asArr
  let providerStates ← parseAll parseProviderState statesArr
  let request ← jlookup "request" kvs >>= parseRequest
  let response ← jlookup "response" kvs >>= parseResponse
  pure ⟨description, providerStates, request, response, matchingRules,
        generators⟩

/-- Parse a contract from the canonical pact document. -/
def parseContract (v : JVal) : Option Contract := do
  let kvs ← asObj v
  let consumerName ← jlookup "consumer" kvs >>= asObj >>= jlookup "name"
      >>= asStr
  let interArr ← jlookup "interactions" kvs >>= asArr
  let interactions ← parseAll parseInteraction interArr
  let specVersion ← jlookup "metadata" kvs >>= asObj
      >>= jlookup "pactSpecification" >>= asObj >>= jlookup "version"
      >>= asStr
  let providerName ← jlookup "provider" kvs >>= asObj >>= jlookup "name"
      >>= asStr
  pure ⟨consumerName, providerName, interactions, specVersion⟩

/-- The canonical form of a provider state, as recovered by parsing its
serialization. -/
def canonProviderState (ps : ProviderState) : ProviderState :=
  ⟨ps.name, canonMap ps.params⟩

/-- The canonical form of a request. -/
def canonRequest (r : RequestRec) : RequestRec :=
  ⟨r.method, r.path, canonMap r.query, canonMap r.headers, canon r.body⟩

/-- The canonical form of a response. -/
def canonResponse (r : ResponseRec) : ResponseRec :=
  ⟨r.status, canonMap r.headers, canon r.body⟩

/-- The canonical form of an interaction. -/
def canonInteraction (i : Interaction) : Interaction :=
  ⟨i.description, i.providerStates.map canonProviderState,
   canonRequest i.request, canonResponse i.response,
   canonMap i.matchingRules, canonMap i.generators⟩

/-- The canonical form of a contract. -/
def canonContract (c : Contract) : Contract :=
  ⟨c.consumerName, c.providerName, c.interactions.map canonInteraction,
   c.specVersion⟩

/-! ## Verifier state machine

Modelled from the spec: `VerifierV3.verify_pacts`
(`pact/verifier_v3.py` is not under src/; only its callers and tests
are).  Per §4.5/§6/§7: for each interaction, run provider-state setup (a
non-2xx setup response fails that interaction with `StateSetupFailed`
and verification continues), issue the recorded request (a
network-level failure is `ProviderUnreachable` and is whole-run fatal),
match the live response; the result is `(success, log)` with `success`
the AND of all per-interaction outcomes and `log` the full
per-interaction sequence; only configuration errors (unreadable
source) and an unreachable provider signal a hard failure — mismatch
content never does. -/

/-- A single detected discrepancy (§3). -/
structure Mismatch where
  path : String
  expected : String
  actual : String
deriving DecidableEq, Repr

/-- The behaviour of the provider under verification: the HTTP status
its state-setup endpoint returns for a given state, and the response it
gives to a request (`none` models a network-level failure). -/
structure ProviderBehavior where
  stateSetupStatus : String → List (String × JVal) → Int
  response : RequestRec → Option ResponseRec

/-- Is an HTTP status a 2xx success? -/
def is2xx (status : Int) : Bool := 200 ≤ status && status < 300

/-- Run provider-state setup for every provider state of an
interaction; `true` when every setup call returned 2xx. -/
def setupStatesOk (pb : ProviderBehavior) (states : List ProviderState) :
    Bool :=
  states.all fun s => is2xx (pb.stateSetupStatus s.name s.params)

/-- Modelled from the spec: the response check of the matching engine as
the verifier uses it (the engine itself is in the native library, not
under src/).  The status is compared on path `$.status` and the body is
compared structurally up to key order; all mismatches are collected,
never raised. -/
def matchResponse (expected actual : ResponseRec) : List Mismatch :=
  (if expected.status = actual.status then []
   else [⟨"$.status", toString expected.status, toString actual.status⟩]) ++
  (if render (canon expected.body) = render (canon actual.body) then []
   else [⟨"$.body", render (canon expected.body),
         render (canon actual.body)⟩])

/-- The per-interaction entry of the verification log. -/
structure InteractionResult where
  description : String
  passed : Bool
  mismatches : List Mismatch
  stateSetupFailed : Bool
deriving DecidableEq, Repr

/-- The hard failures of the verifier (§7): a configuration error or an
unreachable provider.  Ordinary mismatches are never represented
here. -/
inductive VerifierError where
  | configurationError (msg : String)
  | providerUnreachable
deriving DecidableEq, Repr

/-- Verify one interaction (§4.5): state setup, request, response
match. -/
def verifyInteraction (pb : ProviderBehavior) (i : Interaction) :
    Except VerifierError InteractionResult :=
  if setupStatesOk pb i.providerStates then
    match pb.response i.request with
    | none => .error .providerUnreachable
    | some live =>
      let ms := matchResponse i.response live
      .ok ⟨i.description, ms.isEmpty, ms, false⟩
  else
    .ok ⟨i.description, false, [], true⟩

/-- Verify a sequence of interactions in document order, collecting
every per-interaction result. -/
def runInteractions (pb : ProviderBehavior) :
    List Interaction → Except VerifierError (List InteractionResult)
  | [] => .ok []
  | i :: rest => do
    let r ← verifyInteraction pb i
    let rs ← runInteractions pb rest
    pure (r :: rs)

/-- Read the pact sources; an unreadable source (`none`) is a
configuration error. -/
def readSources : List (Option Contract) →
    Except VerifierError (List Contract)
  | [] => .ok []
  | none :: _ => .error (.configurationError "unreadable pact source")
  | some c :: rest => do
    let cs ← readSources rest
    pure (c :: cs)

/-- `VerifierV3.verify_pacts`: read the sources, verify every
interaction of every contract in order, and return the pair
`(success, log)` with `success` the AND of all outcomes. -/
def verify_pacts (pb : ProviderBehavior) (sources : List (Option Contract)) :
    Except VerifierError (Bool × List InteractionResult) := do
  let contracts ← readSources sources
  let log ← runInteractions pb (contracts.map Contract.interactions).flatten
  pure (log.all (fun r => r.passed), log)

/-! ## Mock service verification

Modelled from the spec: `MockServer.verify`
(`pact/ffi/native_mock_server.py` is not under src/).  Where the spec
(§4.4, §7) and the in-repo code disagree, the in-repo code is followed:
`PactV3.verify`'s docstring states ":raises AssertionError: When not
all interactions are found", and the provider example test
`test_verify_failure_when_a_provider_missing` expects `AssertionError`
to be raised.  A configured interaction that no recorded request
matched therefore raises `AssertionError` carrying the aggregated
unmatched-interaction report, instead of returning a mismatch value. -/

/-- A request recorded by the running mock server. -/
structure RecordedRequest where
  method : String
  path : String
deriving DecidableEq, Repr

/-- Did a recorded request replay a configured interaction
(method and path, §4.4)? -/
def requestMatchesInteraction (i : InteractionRec) (r : RecordedRequest) :
    Bool :=
  i.requestMethod == some r.method && i.requestPath == some r.path

/-- The configured interactions that no recorded request matched. -/
def unmatchedInteractions (cfg : List InteractionRec)
    (recorded : List RecordedRequest) : List InteractionRec :=
  cfg.filter fun i => !(recorded.any (requestMatchesInteraction i))

/-- The successful outcome of mock-server verification: all matched,
pact file written. -/
structure MockServerResult where
  matched : Bool
  pactWritten : Bool
deriving DecidableEq, Repr

/-- The `AssertionError` raised on verification failure, carrying the
aggregated report of unmatched interaction descriptions. -/
structure AssertionErrorInfo where
  unmatched : List (Option String)
deriving DecidableEq, Repr

/-- `MockServer.verify` as observed through `PactV3.verify`: when every
configured interaction was replayed, return a result and write the pact
file; otherwise raise `AssertionError` with the aggregated unmatched
report. -/
def mock_server_verify (cfg : List InteractionRec)
    (recorded : List RecordedRequest) :
    Except AssertionErrorInfo MockServerResult :=
  let un := unmatchedInteractions cfg recorded
  if un.isEmpty then .ok ⟨true, true⟩
  else .error ⟨un.map (fun i => i.description)⟩

/-! ## Message provider lifecycle

Modelled from the spec: the `MessageProviderV3` context manager
(`pact/message_provider_v3.py` is not under src/; only its unit tests
are).  Per §4.4 `stop()` always releases the listener and is safe to
call from any state (idempotent shutdown), even after a failed
`verify()`; the unit tests (`MessageProviderV3ContextManagerTestCase`)
show `_stop_proxy` running exactly once per `with` block, also when
`_wait_for_server_start` fails with `RuntimeError` before the body
runs. -/

/-- The observable lifecycle events of one `with provider:` block. -/
inductive LifecycleEvent where
  | startProxy
  | runtimeError
  | body
  | verifyFailed
  | stopProxy
deriving DecidableEq, Repr

/-- The event trace of one execution of the context manager: the proxy
is started; either startup fails with `RuntimeError` before the body
runs, or the body runs (and `verify` inside it may fail); the shutdown
step always runs, once, at the end. -/
def contextManagerRun (startupFails verifyFails : Bool) :
    List LifecycleEvent :=
  [.startProxy] ++
  (if startupFails then [.runtimeError]
   else [.body] ++ (if verifyFails then [.verifyFailed] else [])) ++
  [.stopProxy]

/-- The proxy listener state. -/
structure ProxyState where
  listenerBound : Bool
deriving DecidableEq, Repr

/-- `_stop_proxy`: release the listener, from any state. -/
def stopProxy : ProxyState → ProxyState := fun _ => ⟨false⟩

/-! ## Theorems -/

/-- C1: for every call `number(value, min_val, max_val, digits)`,
construction fails with the mutual-exclusion `ValueError` exactly when
both `min_val` and `digits` are supplied, and returns a matcher (at
most one of them supplied) otherwise. -/
theorem number_min_digits_mutually_exclusive
    (value : Option PyNum) (minVal maxVal digits : Option Int) :
    (number value minVal maxVal digits =
        .error "min_val and digits cannot be used together" ↔
      (minVal.isSome && digits.isSome) = true) ∧
    ((∃ m, number value minVal maxVal digits = .ok m) ↔
      (minVal.isSome && digits.isSome) = false) := by
  by_cases h : (minVal.isSome && digits.isSome) = true <;>
    simp [number, h]

/-- Witness for C1: `number(min_val=1, digits=2)` fails with the
mutual-exclusion error. -/
theorem number_min_digits_witness :
    number none (some 1) none (some 2) =
      .error "min_val and digits cannot be used together" :=
  (number_min_digits_mutually_exclusive none (some 1) none (some 2)).1.mpr
    rfl

/-- C2: for every successful `number(...)` call, the generator stored
in the returned matcher is fixed by the construction arguments alone:
`random_int(min_val, max_val)` exactly when `value` is an `int` or one
of the bounds is supplied, `random_decimal(digits)` otherwise. -/
theorem number_generator_chosen_at_construction
    (value : Option PyNum) (minVal maxVal digits : Option Int)
    (m : MatchType) (h : number value minVal maxVal digits = .ok m) :
    m.generatorOf =
      some (if isIntInstance value || minVal.isSome || maxVal.isSome then
              Gen.randomInt minVal maxVal
            else
              Gen.randomDecimal digits) := by
  by_cases hc : (minVal.isSome && digits.isSome) = true <;>
      simp [number, hc] at h
  subst h
  simp [ConcreteMatcher, MatchType.generatorOf]

/-- Witness for C2: `number(None, None, None, None)` succeeds and its
matcher stores the `random_decimal(None)` generator. -/
theorem number_generator_witness :
    MatchType.generatorOf (ConcreteMatcher "number" none none none none
        none none none (some (Gen.randomDecimal none)) false) =
      some (if isIntInstance none || (none : Option Int).isSome ||
              (none : Option Int).isSome then
              Gen.randomInt none none
            else Gen.randomDecimal none) :=
  number_generator_chosen_at_construction none none none none _ rfl

/-- C3: `each_like(v, min_count, max_count)` stores the one-element
list `[v]` as the template, `min_count` as `min` and `max_count` as
`max`; `min_count` defaults to `1` in the source, and an empty actual
array violates that default minimum. -/
theorem each_like_template_and_bounds (v : MatchType)
    (minCount maxCount : Option Int) :
    (each_like v minCount maxCount).typeOf = some "type" ∧
    (each_like v minCount maxCount).valueOf = some (.list [v]) ∧
    (each_like v minCount maxCount).minOf = minCount ∧
    (each_like v minCount maxCount).maxOf = maxCount ∧
    each_like_default_min = some 1 ∧
    lengthWithinBounds 0 each_like_default_min maxCount = false := by
  refine ⟨rfl, rfl, rfl, rfl, rfl, ?_⟩
  cases maxCount <;> simp [lengthWithinBounds, each_like_default_min]

/-- Witness for C3: with the source defaults, `each_like` of a string
template stores `min = 1`. -/
theorem each_like_default_witness :
    (each_like (.str "a") each_like_default_min each_like_default_max).minOf
      = each_like_default_min :=
  (each_like_template_and_bounds (.str "a") each_like_default_min
    each_like_default_max).2.2.1

/-- C6: in every execution of the provider context manager the proxy
shutdown step runs exactly once, including when startup fails with
`RuntimeError` before the body runs (the body then never runs), and
`_stop_proxy` is idempotent and releases the listener from any
state. -/
theorem stop_proxy_runs_once_and_idempotent
    (startupFails verifyFails : Bool) (s : ProxyState) :
    (contextManagerRun startupFails verifyFails).count .stopProxy = 1 ∧
    (contextManagerRun true verifyFails).contains .body = false ∧
    stopProxy (stopProxy s) = stopProxy s ∧
    (stopProxy s).listenerBound = false := by
  refine ⟨?_, ?_, rfl, rfl⟩
  · cases startupFails <;> cases verifyFails <;> rfl
  · cases verifyFails <;> rfl

/-- Witness for C6: on a startup failure, the shutdown step runs
exactly once. -/
theorem stop_proxy_runs_once_witness :
    (contextManagerRun true false).count .stopProxy = 1 :=
  (stop_proxy_runs_once_and_idempotent true false ⟨true⟩).1

/-- Induction over `Body`, with membership hypotheses for the nested
dict and list children. -/
theorem bodyInductionOn {P : Body → Prop}
    (hnull : P .null) (hbool : ∀ b, P (.bool b)) (hint : ∀ n, P (.int n))
    (hstr : ∀ s, P (.str s))
    (hdict : ∀ kvs, (∀ kv ∈ kvs, P kv.2) → P (.dict kvs))
    (hlist : ∀ xs, (∀ x ∈ xs, P x) → P (.list xs))
    (hmatch : ∀ g, P g → P (.v3matcher g)) :
    ∀ b, P b
  | .null => hnull
  | .bool b => hbool b
  | .int n => hint n
  | .str s => hstr s
  | .dict kvs => hdict kvs (fun kv hkv =>
      bodyInductionOn hnull hbool hint hstr hdict hlist hmatch kv.2)
  | .list xs => hlist xs (fun x hx =>
      bodyInductionOn hnull hbool hint hstr hdict hlist hmatch x)
  | .v3matcher g => hmatch g
      (bodyInductionOn hnull hbool hint hstr hdict hlist hmatch g)
termination_by b => sizeOf b
decreasing_by
  · have hm := List.sizeOf_lt_of_mem hkv
    obtain ⟨k, v⟩ := kv
    simp at hm ⊢
    omega
  · have hm := List.sizeOf_lt_of_mem hx
    simp
    omega
  · simp

/-- The dict comprehension of `__process_body` is a map over the
values. -/
theorem process_body_kvs_eq_map (kvs : List (String × Body)) :
    process_body_kvs kvs = kvs.map fun kv => (kv.1, process_body kv.2) := by
  induction kvs with
  | nil => rfl
  | cons kv kvs ih => simp [process_body_kvs, ih]

/-- The list comprehension of `__process_body` is a map over the
elements. -/
theorem process_body_list_eq_map (xs : List Body) :
    process_body_list xs = xs.map process_body := by
  induction xs with
  | nil => rfl
  | cons x xs ih => simp [process_body_list, ih]

/-- `matcherFreeKvs` holds exactly when every dict value is
matcher-free. -/
theorem matcherFreeKvs_iff (kvs : List (String × Body)) :
    matcherFreeKvs kvs = true ↔ ∀ kv ∈ kvs, matcherFree kv.2 = true := by
  induction kvs with
  | nil => simp [matcherFreeKvs]
  | cons kv kvs ih => simp [matcherFreeKvs, ih]

/-- `matcherFreeList` holds exactly when every element is
matcher-free. -/
theorem matcherFreeList_iff (xs : List Body) :
    matcherFreeList xs = true ↔ ∀ x ∈ xs, matcherFree x = true := by
  induction xs with
  | nil => simp [matcherFreeList]
  | cons x xs ih => simp [matcherFreeList, ih]

/-- On a matcher-free body, `__process_body` is the identity. -/
theorem process_body_id_of_matcherFree :
    ∀ b, matcherFree b = true → process_body b = b := by
  intro b
  induction b using bodyInductionOn with
  | hnull => intro _; rfl
  | hbool b => intro _; rfl
  | hint n => intro _; rfl
  | hstr s => intro _; rfl
  | hdict kvs ih =>
    intro hf
    rw [matcherFree] at hf
    rw [matcherFreeKvs_iff] at hf
    rw [process_body, process_body_kvs_eq_map]
    congr 1
    calc (kvs.map fun kv => (kv.1, process_body kv.2))
        = kvs.map id := by
          apply List.map_congr_left
          intro kv hkv
          have := ih kv hkv (hf kv hkv)
          simp [this]
      _ = kvs := List.map_id kvs
  | hlist xs ih =>
    intro hf
    rw [matcherFree] at hf
    rw [matcherFreeList_iff] at hf
    rw [process_body, process_body_list_eq_map]
    congr 1
    calc xs.map process_body
        = xs.map id := List.map_congr_left fun x hx => ih x hx (hf x hx)
      _ = xs := List.map_id xs
  | hmatch g _ =>
    intro hf
    rw [matcherFree] at hf
    exact absurd hf (by simp)

/-- C7: `PactV3.__process_body` maps dicts key-by-key (preserving the
key list), lists element-by-element (preserving length and order),
replaces an embedded `V3Matcher` by the processed result of its
`generate()` call, returns every other value unchanged, and is the
identity on bodies containing no `V3Matcher`. -/
theorem process_body_structure :
    (∀ kvs, process_body (.dict kvs) =
        .dict (kvs.map fun kv => (kv.1, process_body kv.2))) ∧
    (∀ kvs : List (String × Body),
      (kvs.map fun kv => (kv.1, process_body kv.2)).map Prod.fst =
        kvs.map Prod.fst) ∧
    (∀ xs, process_body (.list xs) = .list (xs.map process_body)) ∧
    (∀ xs : List Body, (xs.map process_body).length = xs.length) ∧
    (∀ g, process_body (.v3matcher g) = process_body g) ∧
    process_body .null = .null ∧
    (∀ b, process_body (.bool b) = .bool b) ∧
    (∀ n, process_body (.int n) = .int n) ∧
    (∀ s, process_body (.str s) = .str s) ∧
    (∀ b, matcherFree b = true → process_body b = b) := by
  refine ⟨?_, ?_, ?_, ?_, fun g => rfl, rfl, fun b => rfl, fun n => rfl,
    fun s => rfl, process_body_id_of_matcherFree⟩
  · intro kvs; rw [process_body, process_body_kvs_eq_map]
  · intro kvs; simp
  · intro xs; rw [process_body, process_body_list_eq_map]
  · intro xs; simp

/-- Witness for C7: on a concrete matcher-free body, `__process_body`
is the identity, and a concrete embedded `V3Matcher` is replaced by its
generated value. -/
theorem process_body_structure_witness :
    matcherFree (.dict [("id", .int 123), ("name", .str "Verna")]) = true ∧
    process_body (.dict [("id", .int 123), ("name", .str "Verna")]) =
      .dict [("id", .int 123), ("name", .str "Verna")] ∧
    process_body (.v3matcher (.str "generated")) = .str "generated" :=
  ⟨rfl,
   process_body_structure.2.2.2.2.2.2.2.2.2 _ rfl,
   process_body_structure.2.2.2.2.1 (.str "generated")⟩

/-- The `content_type` component of the header loop equals a left fold
over the headers. -/
theorem processHeaders_snd (hs : List HeaderEntry) :
    ∀ (idx : Nat) (ct : Option String),
      (processHeaders idx ct hs).2 =
        hs.foldl
          (fun acc h =>
            if h.name = "Content-Type" then some h.value else acc) ct := by
  induction hs with
  | nil => intro idx ct; rfl
  | cons h rest ih => intro idx ct; simp [processHeaders, ih]

/-- The fold tracking `content_type` ends unbound exactly when it
starts unbound and no header is named `"Content-Type"`. -/
theorem foldl_contentType_none (hs : List HeaderEntry) :
    ∀ acc : Option String,
      hs.foldl
          (fun acc h =>
            if h.name = "Content-Type" then some h.value else acc) acc =
          none ↔
        acc = none ∧ hs.all (fun h => !(h.name == "Content-Type")) = true := by
  induction hs with
  | nil => intro acc; simp
  | cons h rest ih =>
    intro acc
    by_cases hn : h.name = "Content-Type" <;> simp [hn, ih]

/-- `lastContentType` is unbound exactly when no header is named
`"Content-Type"`. -/
theorem lastContentType_none_iff (hs : List HeaderEntry) :
    lastContentType hs = none ↔
      hs.all (fun h => !(h.name == "Content-Type")) = true := by
  rw [lastContentType, foldl_contentType_none]
  simp

/-- C9: in `with_request` and `will_respond_with`, a non-`None` body is
attached only when the headers bind the local `content_type` (an entry
named `"Content-Type"`); with `headers=None` or no `"Content-Type"`
entry, a non-`None` body makes the call fail with
`UnboundLocalError`. -/
theorem body_requires_content_type_header
    (p : PactV3) (i : InteractionRec) (rest : List InteractionRec)
    (hp : p.interactions = i :: rest)
    (method path : String) (q : Option String) (hs : List HeaderEntry)
    (b : Body) (status : Int) :
    with_request p method path q none (some b) =
        .error .unboundLocalError ∧
    will_respond_with p status none (some b) =
        .error .unboundLocalError ∧
    (lastContentType hs = none →
      with_request p method path q (some hs) (some b) =
          .error .unboundLocalError ∧
      will_respond_with p status (some hs) (some b) =
          .error .unboundLocalError) ∧
    (∀ ct, lastContentType hs = some ct →
      (∃ i2, with_request p method path q (some hs) (some b) =
          .ok { p with interactions := i2 :: rest } ∧
        i2.requestBody = some (ct, process_body b)) ∧
      (∃ i2, will_respond_with p status (some hs) (some b) =
          .ok { p with interactions := i2 :: rest } ∧
        i2.responseBody = some (ct, process_body b))) ∧
    (lastContentType hs = none ↔
      hs.all (fun h => !(h.name == "Content-Type")) = true) := by
  obtain ⟨cn, pn, ints⟩ := p
  simp only [PactV3.mk.injEq] at hp ⊢
  subst hp
  have hct : (processHeaders 0 none hs).2 = lastContentType hs := by
    rw [processHeaders_snd, lastContentType]
  refine ⟨rfl, rfl, ?_, ?_, lastContentType_none_iff hs⟩
  · intro hnone
    have h2 : (processHeaders 0 none hs).2 = none := hct.trans hnone
    constructor
    · simp [with_request, h2]
    · simp [will_respond_with, h2]
  · intro ct hsome
    have h2 : (processHeaders 0 none hs).2 = some ct := hct.trans hsome
    constructor
    · refine ⟨⟨i.description, i.providerState, some method, some path,
          i.requestHeaders ++ (processHeaders 0 none hs).1,
          some (ct, process_body b), i.responseStatus, i.responseHeaders,
          i.responseBody⟩, ?_, rfl⟩
      simp [with_request, h2]
    · refine ⟨⟨i.description, i.providerState, i.requestMethod,
          i.requestPath, i.requestHeaders, i.requestBody, some status,
          i.responseHeaders ++ (processHeaders 0 none hs).1,
          some (ct, process_body b)⟩, ?_, rfl⟩
      simp [will_respond_with, h2]

/-- Witness for C9: with a `Content-Type` header present, a request
body is attached with that content type. -/
theorem body_requires_content_type_header_witness :
    ∃ i2, with_request ⟨"Consumer", "Provider", [newInteraction "i"]⟩
        "GET" "/users/123" none
        (some [⟨"Content-Type", "application/json"⟩])
        (some (.str "x")) =
      .ok ⟨"Consumer", "Provider", [i2]⟩ ∧
      i2.requestBody = some ("application/json", process_body (.str "x")) :=
  ((body_requires_content_type_header
      ⟨"Consumer", "Provider", [newInteraction "i"]⟩ (newInteraction "i") []
      rfl "GET" "/users/123" none [⟨"Content-Type", "application/json"⟩]
      (.str "x") 200).2.2.2.1 "application/json" rfl).1

/-- C10: every builder step (`given`, `upon_receiving`, `with_request`,
`will_respond_with`) configures `interactions[0]` — the first
interaction created — leaving all later interactions untouched;
`new_http_interaction` appends at the end so the first interaction
stays first; and on an empty interactions list every step fails with
`IndexError`. -/
theorem builder_configures_first_interaction
    (p : PactV3) (d s method path : String) (q : Option String)
    (hs : Option (List HeaderEntry)) (b : Option Body) (status : Int) :
    (p.interactions = [] →
      given p s = .error .indexError ∧
      upon_receiving p d = .error .indexError ∧
      with_request p method path q hs b = .error .indexError ∧
      will_respond_with p status hs b = .error .indexError ∧
      (new_http_interaction p d).interactions = [newInteraction d]) ∧
    (∀ i rest, p.interactions = i :: rest →
      given p s = .ok { p with interactions :=
          { i with providerState := some s } :: rest } ∧
      upon_receiving p d = .ok { p with interactions :=
          { i with description := some d } :: rest } ∧
      (new_http_interaction p d).interactions =
          i :: (rest ++ [newInteraction d]) ∧
      (∀ p2, with_request p method path q hs b = .ok p2 →
        ∃ i2, p2.interactions = i2 :: rest) ∧
      (∀ p2, will_respond_with p status hs b = .ok p2 →
        ∃ i2, p2.interactions = i2 :: rest)) := by
  obtain ⟨cn, pn, ints⟩ := p
  constructor
  · intro h
    simp only at h
    subst h
    exact ⟨rfl, rfl, rfl, rfl, rfl⟩
  · intro i rest h
    simp only at h
    subst h
    refine ⟨rfl, rfl, rfl, ?_, ?_⟩
    · intro p2 h2
      cases hs with
      | none =>
        cases b with
        | none => simp [with_request] at h2; exact ⟨_, by rw [← h2]⟩
        | some b0 => simp [with_request] at h2
      | some hs0 =>
        cases b with
        | none => simp [with_request] at h2; exact ⟨_, by rw [← h2]⟩
        | some b0 =>
          cases hc2 : (processHeaders 0 none hs0).2 with
          | none => simp [with_request, hc2] at h2
          | some ct =>
            simp [with_request, hc2] at h2
            exact ⟨_, by rw [← h2]⟩
    · intro p2 h2
      cases hs with
      | none =>
        cases b with
        | none => simp [will_respond_with] at h2; exact ⟨_, by rw [← h2]⟩
        | some b0 => simp [will_respond_with] at h2
      | some hs0 =>
        cases b with
        | none => simp [will_respond_with] at h2; exact ⟨_, by rw [← h2]⟩
        | some b0 =>
          cases hc2 : (processHeaders 0 none hs0).2 with
          | none => simp [will_respond_with, hc2] at h2
          | some ct =>
            simp [will_respond_with, hc2] at h2
            exact ⟨_, by rw [← h2]⟩

/-- Witness for C10: on a pact with two interactions, `given`
configures the first and leaves the second untouched, and a step on an
empty pact fails with `IndexError`. -/
theorem builder_configures_first_interaction_witness :
    given ⟨"Consumer", "Provider",
        [newInteraction "one", newInteraction "two"]⟩ "user exists" =
      .ok ⟨"Consumer", "Provider",
        [{ newInteraction "one" with providerState := some "user exists" },
         newInteraction "two"]⟩ ∧
    given ⟨"Consumer", "Provider", []⟩ "user exists" =
      .error .indexError :=
  ⟨((builder_configures_first_interaction
      ⟨"Consumer", "Provider", [newInteraction "one", newInteraction "two"]⟩
      "d" "user exists" "GET" "/" none none none 200).2
      (newInteraction "one") [newInteraction "two"] rfl).1,
   ((builder_configures_first_interaction
      ⟨"Consumer", "Provider", []⟩
      "d" "user exists" "GET" "/" none none none 200).1 rfl).1⟩

/-- C5 counterexample: with one configured interaction and no recorded
request, `verify` does not return a mismatch result — it raises
`AssertionError` (as its docstring and the provider example test
state), so the claim that it returns rather than raises is false. -/
theorem mock_verify_raises_counterexample :
    (¬ ∃ r, mock_server_verify
        [newInteraction "A document deleted successfully"] [] = .ok r) ∧
    mock_server_verify [newInteraction "A document deleted successfully"] []
      = .error ⟨[some "A document deleted successfully"]⟩ := by
  constructor
  · rintro ⟨r, hr⟩
    exact Except.noConfusion (hr.symm.trans rfl)
  · rfl

/-- C5 (amended): when every configured interaction was replayed,
`verify` returns the matched result and writes the pact file; when some
interaction was not replayed, it raises `AssertionError` carrying the
full aggregated list of unmatched interactions — the aggregation is
never truncated, and the mismatch data is surfaced through the raised
error rather than a returned value. -/
theorem mock_verify_aggregates_and_raises
    (cfg : List InteractionRec) (recorded : List RecordedRequest) :
    (unmatchedInteractions cfg recorded = [] →
      mock_server_verify cfg recorded = .ok ⟨true, true⟩) ∧
    (unmatchedInteractions cfg recorded ≠ [] →
      mock_server_verify cfg recorded =
        .error ⟨(unmatchedInteractions cfg recorded).map
          (fun i => i.description)⟩) := by
  constructor
  · intro h
    simp [mock_server_verify, h]
  · intro h
    have he : (unmatchedInteractions cfg recorded).isEmpty = false := by
      simpa [List.isEmpty_iff] using h
    simp [mock_server_verify, he]

/-- Witness for C5's amended theorem: a concrete unmatched interaction
raises `AssertionError` naming it. -/
theorem mock_verify_aggregates_witness :
    mock_server_verify [newInteraction "missing interaction"] [] =
      .error ⟨[some "missing interaction"]⟩ :=
  (mock_verify_aggregates_and_raises [newInteraction "missing interaction"]
    []).2 (fun h => List.noConfusion h)

/-- Reduction of monadic bind on an `Except.error`. -/
@[simp] theorem exceptErrorBind {ε α β : Type} (e : ε)
    (f : α → Except ε β) : (Except.error e >>= f) = .error e := rfl

/-- Reduction of monadic bind on an `Except.ok`. -/
@[simp] theorem exceptOkBind {ε α β : Type} (a : α)
    (f : α → Except ε β) : (Except.ok a >>= f) = f a := rfl

/-- Reduction of `pure` for `Except`. -/
@[simp] theorem exceptPureEq {ε α : Type} (a : α) :
    (pure a : Except ε α) = .ok a := rfl

/-- A successful per-interaction verification reports the interaction's
own description. -/
theorem verifyInteraction_desc (pb : ProviderBehavior) (i : Interaction)
    (r : InteractionResult) (h : verifyInteraction pb i = .ok r) :
    r.description = i.description := by
  rw [verifyInteraction] at h
  split at h
  · cases hr : pb.response i.request with
    | none => rw [hr] at h; exact Except.noConfusion h
    | some live =>
      rw [hr] at h
      injection h with h
      rw [← h]
  · injection h with h
    rw [← h]

/-- A successful verification run logs every interaction, in order. -/
theorem runInteractions_desc (pb : ProviderBehavior) :
    ∀ (l : List Interaction) (log : List InteractionResult),
      runInteractions pb l = .ok log →
      log.map (fun r => r.description) = l.map (fun i => i.description) := by
  intro l
  induction l with
  | nil =>
    intro log h
    rw [runInteractions] at h
    injection h with h
    rw [← h]
    rfl
  | cons i rest ih =>
    intro log h
    cases hv : verifyInteraction pb i with
    | error e => simp [runInteractions, hv] at h
    | ok r =>
      cases hrun : runInteractions pb rest with
      | error e => simp [runInteractions, hv, hrun] at h
      | ok rs =>
        simp [runInteractions, hv, hrun] at h
        rw [← h]
        simp [verifyInteraction_desc pb i r hv, ih rs hrun]

/-- When the provider is reachable for every request, a verification
run never fails: mismatches are collected in the log, not raised. -/
theorem runInteractions_isOk (pb : ProviderBehavior)
    (hresp : ∀ r, (pb.response r).isSome = true) :
    ∀ l, ∃ log, runInteractions pb l = .ok log := by
  intro l
  induction l with
  | nil => exact ⟨[], rfl⟩
  | cons i rest ih =>
    obtain ⟨log, hlog⟩ := ih
    have hv : ∃ r, verifyInteraction pb i = .ok r := by
      rw [verifyInteraction]
      split
      · cases hr : pb.response i.request with
        | none =>
          have hi := hresp i.request
          rw [hr] at hi
          exact absurd hi (by simp)
        | some live => exact ⟨_, rfl⟩
      · exact ⟨_, rfl⟩
    obtain ⟨r, hr⟩ := hv
    exact ⟨r :: log, by simp [runInteractions, hr, hlog]⟩

/-- Reading all-readable sources (no `none` entry) never fails. -/
theorem readSources_ok_of_readable :
    ∀ sources : List (Option Contract), sources.all Option.isSome = true →
      ∃ contracts, readSources sources = .ok contracts := by
  intro sources
  induction sources with
  | nil => intro _; exact ⟨[], rfl⟩
  | cons s rest ih =>
    intro h
    simp only [List.all_cons, Bool.and_eq_true] at h
    cases s with
    | none => simp at h
    | some c =>
      obtain ⟨cs, hcs⟩ := ih h.2
      exact ⟨c :: cs, by simp [readSources, hcs]⟩

/-- C4: `VerifierV3.verify_pacts` returns a pair `(success, log)` where
`success` is the AND of all per-interaction outcomes and `log` is the
full per-interaction result sequence over every interaction of every
contract, in order; ordinary mismatches never make it raise — with
readable sources and a reachable provider it always returns a
result. -/
theorem verify_pacts_returns_success_and_log
    (pb : ProviderBehavior) (sources : List (Option Contract)) :
    (∀ success log, verify_pacts pb sources = .ok (success, log) →
      success = log.all (fun r => r.passed) ∧
      ∃ contracts, readSources sources = .ok contracts ∧
        log.map (fun r => r.description) =
          ((contracts.map Contract.interactions).flatten).map
            (fun i => i.description)) ∧
    (sources.all Option.isSome = true →
      (∀ r, (pb.response r).isSome = true) →
      ∃ success log, verify_pacts pb sources = .ok (success, log)) := by
  constructor
  · intro success log h
    cases hrs : readSources sources with
    | error e => simp [verify_pacts, hrs] at h
    | ok contracts =>
      cases hrun : runInteractions pb
          (contracts.map Contract.interactions).flatten with
      | error e => simp [verify_pacts, hrs, hrun] at h
      | ok log2 =>
        simp [verify_pacts, hrs, hrun] at h
        obtain ⟨hsucc, hlog⟩ := h
        subst hlog
        exact ⟨hsucc.symm, contracts, rfl,
          runInteractions_desc pb _ _ hrun⟩
  · intro hsrc hresp
    obtain ⟨contracts, hcs⟩ := readSources_ok_of_readable sources hsrc
    obtain ⟨log, hlog⟩ :=
      runInteractions_isOk pb hresp (contracts.map Contract.interactions).flatten
    exact ⟨log.all (fun r => r.passed), log,
      by simp [verify_pacts, hcs, hlog]⟩

/-- A provider whose state setup always succeeds and that answers every
request with an empty 200 response. -/
def sampleProvider : ProviderBehavior :=
  ⟨fun _ _ => 200, fun _ => some ⟨200, [], JVal.null⟩⟩

/-- A sample interaction expecting a 200 response. -/
def sampleInteraction : Interaction :=
  ⟨"a request for user 123", [⟨"user 123 exists", []⟩],
   ⟨"GET", "/users/123", [], [], JVal.null⟩,
   ⟨200, [], JVal.null⟩, [], []⟩

/-- A sample one-interaction contract. -/
def sampleContract : Contract :=
  ⟨"UserServiceClient", "UserService", [sampleInteraction], "3.0.0"⟩

/-- Witness for C4: on a readable source and a reachable provider,
`verify_pacts` returns a `(success, log)` pair. -/
theorem verify_pacts_returns_witness :
    ∃ success log,
      verify_pacts sampleProvider [some sampleContract] =
        .ok (success, log) :=
  (verify_pacts_returns_success_and_log sampleProvider
    [some sampleContract]).2 rfl (fun _ => rfl)

/-- `canonList` is a map of `canon`. -/
theorem canonList_eq_map (xs : List JVal) : canonList xs = xs.map canon := by
  induction xs with
  | nil => rfl
  | cons x xs ih => simp [canonList, ih]

/-- `canonKvs` is a map of `canon` over the values. -/
theorem canonKvs_eq_map (kvs : List (String × JVal)) :
    canonKvs kvs = kvs.map fun kv => (kv.1, canon kv.2) := by
  induction kvs with
  | nil => rfl
  | cons kv kvs ih => simp [canonKvs, ih]

/-- Induction over `JVal`, with membership hypotheses for the nested
array and object children. -/
theorem jvalInductionOn {P : JVal → Prop}
    (hnull : P .null) (hbool : ∀ b, P (.bool b)) (hnum : ∀ n, P (.num n))
    (hstr : ∀ s, P (.str s))
    (harr : ∀ xs, (∀ x ∈ xs, P x) → P (.arr xs))
    (hobj : ∀ kvs, (∀ kv ∈ kvs, P kv.2) → P (.obj kvs)) :
    ∀ v, P v
  | .null => hnull
  | .bool b => hbool b
  | .num n => hnum n
  | .str s => hstr s
  | .arr xs => harr xs (fun x hx =>
      jvalInductionOn hnull hbool hnum hstr harr hobj x)
  | .obj kvs => hobj kvs (fun kv hkv =>
      jvalInductionOn hnull hbool hnum hstr harr hobj kv.2)
termination_by v => sizeOf v
decreasing_by
  · have hm := List.sizeOf_lt_of_mem hx
    simp
    omega
  · have hm := List.sizeOf_lt_of_mem hkv
    obtain ⟨k, v⟩ := kv
    simp at hm ⊢
    omega

/-- Sorting by key twice is the same as sorting once. -/
theorem sortKeys_idem (l : List (String × JVal)) :
    sortKeys (sortKeys l) = sortKeys l :=
  (List.sorted_insertionSort keyLE l).insertionSort_eq

/-- When every value of `kvs` is a `canon` fixed point after one pass,
`canonKvs` fixes the sorted canonicalized list. -/
theorem canonKvs_fix (kvs : List (String × JVal))
    (hid : ∀ kv ∈ kvs, canon (canon kv.2) = canon kv.2) :
    canonKvs (sortKeys (canonKvs kvs)) = sortKeys (canonKvs kvs) := by
  rw [canonKvs_eq_map]
  have hmem : ∀ a ∈ sortKeys (canonKvs kvs),
      ((a.1, canon a.2) : String × JVal) = a := by
    intro a ha
    have ha2 : a ∈ canonKvs kvs :=
      ((List.perm_insertionSort keyLE (canonKvs kvs)).mem_iff).mp ha
    rw [canonKvs_eq_map] at ha2
    obtain ⟨kv, hkv, rfl⟩ := List.mem_map.mp ha2
    simp [hid kv hkv]
  calc (sortKeys (canonKvs kvs)).map (fun kv => (kv.1, canon kv.2))
      = (sortKeys (canonKvs kvs)).map id := List.map_congr_left hmem
    _ = sortKeys (canonKvs kvs) := List.map_id _

/-- Canonicalization is idempotent. -/
theorem canon_idem : ∀ v, canon (canon v) = canon v := by
  intro v
  induction v using jvalInductionOn with
  | hnull => rfl
  | hbool b => rfl
  | hnum n => rfl
  | hstr s => rfl
  | harr xs ih =>
    simp only [canon, canonList_eq_map, List.map_map]
    congr 1
    apply List.map_congr_left
    intro x hx
    exact ih x hx
  | hobj kvs ih =>
    simp only [canon]
    congr 1
    rw [canonKvs_fix kvs ih]
    exact sortKeys_idem (canonKvs kvs)

/-- `canonMap` is idempotent. -/
theorem canonMap_idem (kvs : List (String × JVal)) :
    canonMap (canonMap kvs) = canonMap kvs := by
  rw [canonMap, canonMap]
  rw [canonKvs_fix kvs (fun kv _ => canon_idem kv.2)]
  exact sortKeys_idem (canonKvs kvs)

/-- Parsing an emitted provider state recovers its canonical form. -/
theorem parse_serialize_providerState (ps : ProviderState) :
    parseProviderState (serializeProviderState ps) =
      some (canonProviderState ps) := rfl

/-- Parsing an emitted request recovers its canonical form. -/
theorem parse_serialize_request (r : RequestRec) :
    parseRequest (serializeRequest r) = some (canonRequest r) := rfl

/-- Parsing an emitted response recovers its canonical form. -/
theorem parse_serialize_response (r : ResponseRec) :
    parseResponse (serializeResponse r) = some (canonResponse r) := rfl

/-- Parsing a list of emitted provider states recovers their canonical
forms. -/
theorem mapM_parse_providerStates (l : List ProviderState) :
    parseAll parseProviderState (l.map serializeProviderState) =
      some (l.map canonProviderState) := by
  induction l with
  | nil => rfl
  | cons ps l ih =>
    simp [parseAll, parse_serialize_providerState, ih]

/-- Parsing an emitted interaction reduces to parsing its provider
states. -/
theorem parse_serialize_interaction_aux (i : Interaction) :
    parseInteraction (serializeInteraction i) =
      (parseAll parseProviderState
        (i.providerStates.map serializeProviderState)).bind
        (fun pss => some ⟨i.description, pss, canonRequest i.request,
          canonResponse i.response, canonMap i.matchingRules,
          canonMap i.generators⟩) := rfl

/-- Parsing an emitted interaction recovers its canonical form. -/
theorem parse_serialize_interaction (i : Interaction) :
    parseInteraction (serializeInteraction i) =
      some (canonInteraction i) := by
  rw [parse_serialize_interaction_aux, mapM_parse_providerStates]
  rfl

/-- Parsing a list of emitted interactions recovers their canonical
forms. -/
theorem mapM_parse_interactions (l : List Interaction) :
    parseAll parseInteraction (l.map serializeInteraction) =
      some (l.map canonInteraction) := by
  induction l with
  | nil => rfl
  | cons i l ih =>
    simp [parseAll, parse_serialize_interaction, ih]

/-- Parsing an emitted contract document reduces to parsing its
interactions. -/
theorem parse_serialize_contract_aux (c : Contract) :
    parseContract (serializeContract c) =
      (parseAll parseInteraction
        (c.interactions.map serializeInteraction)).bind
        (fun ins => some ⟨c.consumerName, c.providerName, ins,
          c.specVersion⟩) := rfl

/-- Parsing an emitted contract document recovers its canonical
form. -/
theorem parse_serialize_contract (c : Contract) :
    parseContract (serializeContract c) = some (canonContract c) := by
  rw [parse_serialize_contract_aux, mapM_parse_interactions]
  rfl

/-- Serializing the canonical form of a provider state emits the same
document. -/
theorem serializeProviderState_canon (ps : ProviderState) :
    serializeProviderState (canonProviderState ps) =
      serializeProviderState ps := by
  simp [serializeProviderState, canonProviderState, canonMap_idem]

/-- Serializing the canonical form of a request emits the same
document. -/
theorem serializeRequest_canon (r : RequestRec) :
    serializeRequest (canonRequest r) = serializeRequest r := by
  simp [serializeRequest, canonRequest, canonMap_idem, canon_idem]

/-- Serializing the canonical form of a response emits the same
document. -/
theorem serializeResponse_canon (r : ResponseRec) :
    serializeResponse (canonResponse r) = serializeResponse r := by
  simp [serializeResponse, canonResponse, canonMap_idem, canon_idem]

/-- Serializing the canonical form of an interaction emits the same
document. -/
theorem serializeInteraction_canon (i : Interaction) :
    serializeInteraction (canonInteraction i) = serializeInteraction i := by
  simp [serializeInteraction, canonInteraction, canonMap_idem,
    serializeRequest_canon, serializeResponse_canon, List.map_map,
    Function.comp, serializeProviderState_canon]

/-- Serializing the canonical form of a contract emits the same
document. -/
theorem serializeContract_canon (c : Contract) :
    serializeContract (canonContract c) = serializeContract c := by
  simp [serializeContract, canonContract, List.map_map, Function.comp,
    serializeInteraction_canon]

/-- C8: serializing a contract to the canonical pact document, parsing
it back, and serializing again yields byte-identical output. -/
theorem contract_serialization_roundtrip (c : Contract) :
    (parseContract (serializeContract c)).map
        (fun c2 => render (serializeContract c2)) =
      some (render (serializeContract c)) := by
  rw [parse_serialize_contract]
  simp [serializeContract_canon]

/-- Witness for C8: the round trip is byte-stable on a concrete
contract. -/
theorem contract_serialization_roundtrip_witness :
    (parseContract (serializeContract sampleContract)).map
        (fun c2 => render (serializeContract c2)) =
      some (render (serializeContract sampleContract)) :=
  contract_serialization_roundtrip sampleContract

end PactPython
